import Mathlib

/-!
Verification of the flexipop positioning engine: a shallow embedding of the
placement resolver (`determinePosition`), the dimension reader
(`getDimensions`), the two popper controller implementations
(`CreatePopper`, `CreatePopperW`) and the overlay controller
(`CreateOverlay`), with theorems checking the specification's claims.

Pixel quantities are modelled as rationals (the source computes in
floating point but only performs `+`, `-`, `/ 2`, `min`/`max`-style
clipping, all exact on the inputs considered).
-/

/-- A primary side of a placement token: `top`, `bottom`, `left`, `right`. -/
inductive Side where
  | top
  | bottom
  | left
  | right
deriving DecidableEq, Repr

/-- An alignment suffix of a placement token: `-start`, `-middle`, `-end`. -/
inductive Align where
  | start
  | middle
  | «end»
deriving DecidableEq, Repr

/-- A placement token: a primary side plus an optional alignment suffix
(`"bottom"`, `"bottom-start"`, ...). A missing suffix means centered
alignment. -/
structure Placement where
  side : Side
  alignSuffix : Option Align
deriving DecidableEq, Repr

/-- The effective alignment of a placement: the suffix, defaulting to
`middle` when absent. -/
def Placement.align (p : Placement) : Align :=
  p.alignSuffix.getD Align.middle

/-- The token `"top"`. -/
def Placement.top : Placement := ⟨Side.top, none⟩

/-- The token `"bottom"`. -/
def Placement.bottom : Placement := ⟨Side.bottom, none⟩

/-- The token `"bottom-start"`. -/
def Placement.bottomStart : Placement := ⟨Side.bottom, some Align.start⟩

/-- The token `"left"`. -/
def Placement.left : Placement := ⟨Side.left, none⟩

/-- The token `"right"`. -/
def Placement.right : Placement := ⟨Side.right, none⟩

/-- The token `"right-start"`. -/
def Placement.rightStart : Placement := ⟨Side.right, some Align.start⟩

/-- The token `"left-end"`. -/
def Placement.leftEnd : Placement := ⟨Side.left, some Align.«end»⟩

/-- The resolver's input: measured dimensions, viewport size, offset
distance and placement (`PositioningContext`). -/
structure PositioningContext where
  placement : Placement
  refWidth : ℚ
  refHeight : ℚ
  refLeft : ℚ
  refTop : ℚ
  popperWidth : ℚ
  popperHeight : ℚ
  windowWidth : ℚ
  windowHeight : ℚ
  offsetDistance : ℚ
deriving DecidableEq, Repr

/-- The resolver's output `{x, y}` in viewport pixel coordinates. -/
structure Coords where
  x : ℚ
  y : ℚ
deriving DecidableEq, Repr

/-- Modelled from the spec: the per-axis viewport clipping of
`determinePosition` (source `helpers.ts` is not under `src/`). The value is
clamped into `[0, upper]` where `upper = viewportExtent - popperExtent`;
when `upper` is negative the lower bound wins and the result is `0`. -/
def clipToRange (value upper : ℚ) : ℚ :=
  max 0 (min value upper)

/-- Modelled from the spec: the placement resolver `determinePosition`
(its implementation, `helpers.ts` / `withFixed/helpers.ts`, is not under
`src/`; only its tests and callers are). Follows §4.2 of the spec:
decompose the placement into side and alignment, compute the unclipped
primary-axis and cross-axis values, clip each axis independently into
`[0, viewportExtent - popperExtent]`, and assign the axes to `x`/`y`
according to the side. Validated below against the concrete input/output
pairs of `determinePosition.test.ts`. -/
def determinePosition (ctx : PositioningContext) : Coords :=
  let side := ctx.placement.side
  let align := ctx.placement.align
  let primary : ℚ :=
    match side with
    | Side.top => ctx.refTop - ctx.popperHeight - ctx.offsetDistance
    | Side.bottom => ctx.refTop + ctx.refHeight + ctx.offsetDistance
    | Side.left => ctx.refLeft - ctx.popperWidth - ctx.offsetDistance
    | Side.right => ctx.refLeft + ctx.refWidth + ctx.offsetDistance
  let cross : ℚ :=
    match side with
    | Side.top | Side.bottom =>
      match align with
      | Align.start => ctx.refLeft
      | Align.middle => ctx.refLeft + ctx.refWidth / 2 - ctx.popperWidth / 2
      | Align.«end» => ctx.refLeft + ctx.refWidth - ctx.popperWidth
    | Side.left | Side.right =>
      match align with
      | Align.start => ctx.refTop
      | Align.middle => ctx.refTop + ctx.refHeight / 2 - ctx.popperHeight / 2
      | Align.«end» => ctx.refTop + ctx.refHeight - ctx.popperHeight
  let ux : ℚ :=
    match side with
    | Side.top | Side.bottom => cross
    | Side.left | Side.right => primary
  let uy : ℚ :=
    match side with
    | Side.top | Side.bottom => primary
    | Side.left | Side.right => cross
  { x := clipToRange ux (ctx.windowWidth - ctx.popperWidth),
    y := clipToRange uy (ctx.windowHeight - ctx.popperHeight) }

/-- The x coordinate the claim's formulas prescribe before clipping:
cross-axis value for `top`/`bottom` placements, primary-axis value for
`left`/`right` placements. Stated from the claim's own wording, to be
compared with `determinePosition`. -/
def claimedX (ctx : PositioningContext) : ℚ :=
  match ctx.placement.side with
  | Side.top | Side.bottom =>
    match ctx.placement.align with
    | Align.start => ctx.refLeft
    | Align.middle => ctx.refLeft + ctx.refWidth / 2 - ctx.popperWidth / 2
    | Align.«end» => ctx.refLeft + ctx.refWidth - ctx.popperWidth
  | Side.left => ctx.refLeft - ctx.popperWidth - ctx.offsetDistance
  | Side.right => ctx.refLeft + ctx.refWidth + ctx.offsetDistance

/-- The y coordinate the claim's formulas prescribe before clipping:
primary-axis value for `top`/`bottom` placements, cross-axis value for
`left`/`right` placements. Stated from the claim's own wording. -/
def claimedY (ctx : PositioningContext) : ℚ :=
  match ctx.placement.side with
  | Side.top => ctx.refTop - ctx.popperHeight - ctx.offsetDistance
  | Side.bottom => ctx.refTop + ctx.refHeight + ctx.offsetDistance
  | Side.left | Side.right =>
    match ctx.placement.align with
    | Align.start => ctx.refTop
    | Align.middle => ctx.refTop + ctx.refHeight / 2 - ctx.popperHeight / 2
    | Align.«end» => ctx.refTop + ctx.refHeight - ctx.popperHeight

theorem clipToRange_eq_self {v b : ℚ} (h0 : 0 ≤ v) (h1 : v ≤ b) :
    clipToRange v b = v := by
  unfold clipToRange
  rw [min_eq_left h1, max_eq_right h0]

theorem clipToRange_nonneg (v b : ℚ) : 0 ≤ clipToRange v b :=
  le_max_left 0 (min v b)

theorem clipToRange_le {v b : ℚ} (hb : 0 ≤ b) : clipToRange v b ≤ b :=
  max_le hb (min_le_right v b)

theorem clipToRange_of_neg {v b : ℚ} (hb : b < 0) : clipToRange v b = 0 :=
  max_eq_left (le_of_lt (lt_of_le_of_lt (min_le_right v b) hb))

theorem determinePosition_eq_clip (ctx : PositioningContext) :
    determinePosition ctx =
      { x := clipToRange (claimedX ctx) (ctx.windowWidth - ctx.popperWidth),
        y := clipToRange (claimedY ctx) (ctx.windowHeight - ctx.popperHeight) } := by
  obtain ⟨⟨side, al⟩, rw, rh, rl, rt, pw, ph, ww, wh, od⟩ := ctx
  cases side <;> rcases al with _ | al <;> rfl

/-- C1: whenever the unclipped coordinates prescribed by the spec's
primary-axis and cross-axis formulas already lie within the clipping
ranges, `determinePosition` returns exactly those formulas, for every
placement token (all sides and alignments, including the bare tokens). -/
theorem determinePosition_unclipped_formulas (ctx : PositioningContext)
    (hx0 : 0 ≤ claimedX ctx)
    (hx1 : claimedX ctx ≤ ctx.windowWidth - ctx.popperWidth)
    (hy0 : 0 ≤ claimedY ctx)
    (hy1 : claimedY ctx ≤ ctx.windowHeight - ctx.popperHeight) :
    determinePosition ctx = { x := claimedX ctx, y := claimedY ctx } := by
  rw [determinePosition_eq_clip, clipToRange_eq_self hx0 hx1,
    clipToRange_eq_self hy0 hy1]

/-- The spec's own scenario: reference `{left:450, top:450, 100×100}` in a
`1000×1000` viewport, popper `50×50`, placement `"bottom-start"`, offset 0. -/
def scenarioBottomStart : PositioningContext :=
  { placement := Placement.bottomStart
    refWidth := 100, refHeight := 100, refLeft := 450, refTop := 450
    popperWidth := 50, popperHeight := 50
    windowWidth := 1000, windowHeight := 1000
    offsetDistance := 0 }

/-- A context whose popper is taller than the viewport (from the repo's
test: popper height `1100` in a `1000`-high window, placement `"top"`). -/
def scenarioTallPopper : PositioningContext :=
  { placement := Placement.top
    refWidth := 100, refHeight := 100, refLeft := 450, refTop := 450
    popperWidth := 50, popperHeight := 1100
    windowWidth := 1000, windowHeight := 1000
    offsetDistance := 0 }

theorem determinePosition_unclipped_formulas_witness :
    0 ≤ claimedX scenarioBottomStart ∧
    claimedX scenarioBottomStart ≤
      scenarioBottomStart.windowWidth - scenarioBottomStart.popperWidth ∧
    0 ≤ claimedY scenarioBottomStart ∧
    claimedY scenarioBottomStart ≤
      scenarioBottomStart.windowHeight - scenarioBottomStart.popperHeight ∧
    determinePosition scenarioBottomStart =
      { x := claimedX scenarioBottomStart, y := claimedY scenarioBottomStart } ∧
    determinePosition scenarioBottomStart = { x := 450, y := 550 } :=
  ⟨by norm_num [determinePosition, clipToRange, claimedX, claimedY, Placement.align, Placement.top, Placement.bottom, Placement.bottomStart, Placement.right, Placement.rightStart, Placement.leftEnd, scenarioBottomStart, scenarioTallPopper, min_def, max_def, Coords.mk.injEq], by norm_num [determinePosition, clipToRange, claimedX, claimedY, Placement.align, Placement.top, Placement.bottom, Placement.bottomStart, Placement.right, Placement.rightStart, Placement.leftEnd, scenarioBottomStart, scenarioTallPopper, min_def, max_def, Coords.mk.injEq], by norm_num [determinePosition, clipToRange, claimedX, claimedY, Placement.align, Placement.top, Placement.bottom, Placement.bottomStart, Placement.right, Placement.rightStart, Placement.leftEnd, scenarioBottomStart, scenarioTallPopper, min_def, max_def, Coords.mk.injEq], by norm_num [determinePosition, clipToRange, claimedX, claimedY, Placement.align, Placement.top, Placement.bottom, Placement.bottomStart, Placement.right, Placement.rightStart, Placement.leftEnd, scenarioBottomStart, scenarioTallPopper, min_def, max_def, Coords.mk.injEq],
   determinePosition_unclipped_formulas scenarioBottomStart
     (by norm_num [determinePosition, clipToRange, claimedX, claimedY, Placement.align, Placement.top, Placement.bottom, Placement.bottomStart, Placement.right, Placement.rightStart, Placement.leftEnd, scenarioBottomStart, scenarioTallPopper, min_def, max_def, Coords.mk.injEq]) (by norm_num [determinePosition, clipToRange, claimedX, claimedY, Placement.align, Placement.top, Placement.bottom, Placement.bottomStart, Placement.right, Placement.rightStart, Placement.leftEnd, scenarioBottomStart, scenarioTallPopper, min_def, max_def, Coords.mk.injEq]) (by norm_num [determinePosition, clipToRange, claimedX, claimedY, Placement.align, Placement.top, Placement.bottom, Placement.bottomStart, Placement.right, Placement.rightStart, Placement.leftEnd, scenarioBottomStart, scenarioTallPopper, min_def, max_def, Coords.mk.injEq]) (by norm_num [determinePosition, clipToRange, claimedX, claimedY, Placement.align, Placement.top, Placement.bottom, Placement.bottomStart, Placement.right, Placement.rightStart, Placement.leftEnd, scenarioBottomStart, scenarioTallPopper, min_def, max_def, Coords.mk.injEq]),
   by norm_num [determinePosition, clipToRange, claimedX, claimedY, Placement.align, Placement.top, Placement.bottom, Placement.bottomStart, Placement.right, Placement.rightStart, Placement.leftEnd, scenarioBottomStart, scenarioTallPopper, min_def, max_def, Coords.mk.injEq]⟩

/-- C2: each axis is clipped independently into
`[0, viewportExtent - popperExtent]`: whenever the popper fits the
viewport on an axis the returned coordinate lies in that range, and
whenever the popper exceeds the viewport on an axis that coordinate is
exactly `0`. -/
theorem determinePosition_clips_to_viewport (ctx : PositioningContext) :
    (ctx.popperWidth ≤ ctx.windowWidth →
      0 ≤ (determinePosition ctx).x ∧
      (determinePosition ctx).x ≤ ctx.windowWidth - ctx.popperWidth) ∧
    (ctx.popperHeight ≤ ctx.windowHeight →
      0 ≤ (determinePosition ctx).y ∧
      (determinePosition ctx).y ≤ ctx.windowHeight - ctx.popperHeight) ∧
    (ctx.windowWidth < ctx.popperWidth → (determinePosition ctx).x = 0) ∧
    (ctx.windowHeight < ctx.popperHeight → (determinePosition ctx).y = 0) := by
  rw [determinePosition_eq_clip]
  refine ⟨fun hw => ⟨clipToRange_nonneg _ _, clipToRange_le (by linarith)⟩,
    fun hh => ⟨clipToRange_nonneg _ _, clipToRange_le (by linarith)⟩,
    fun hw => clipToRange_of_neg (by linarith),
    fun hh => clipToRange_of_neg (by linarith)⟩

theorem determinePosition_clips_to_viewport_witness :
    (0 ≤ (determinePosition scenarioBottomStart).x ∧
      (determinePosition scenarioBottomStart).x ≤
        scenarioBottomStart.windowWidth - scenarioBottomStart.popperWidth) ∧
    (0 ≤ (determinePosition scenarioBottomStart).y ∧
      (determinePosition scenarioBottomStart).y ≤
        scenarioBottomStart.windowHeight - scenarioBottomStart.popperHeight) ∧
    (determinePosition scenarioTallPopper).y = 0 :=
  ⟨(determinePosition_clips_to_viewport scenarioBottomStart).1 (by norm_num [determinePosition, clipToRange, claimedX, claimedY, Placement.align, Placement.top, Placement.bottom, Placement.bottomStart, Placement.right, Placement.rightStart, Placement.leftEnd, scenarioBottomStart, scenarioTallPopper, min_def, max_def, Coords.mk.injEq]),
   (determinePosition_clips_to_viewport scenarioBottomStart).2.1 (by norm_num [determinePosition, clipToRange, claimedX, claimedY, Placement.align, Placement.top, Placement.bottom, Placement.bottomStart, Placement.right, Placement.rightStart, Placement.leftEnd, scenarioBottomStart, scenarioTallPopper, min_def, max_def, Coords.mk.injEq]),
   (determinePosition_clips_to_viewport scenarioTallPopper).2.2.2 (by norm_num [determinePosition, clipToRange, claimedX, claimedY, Placement.align, Placement.top, Placement.bottom, Placement.bottomStart, Placement.right, Placement.rightStart, Placement.leftEnd, scenarioBottomStart, scenarioTallPopper, min_def, max_def, Coords.mk.injEq])⟩

/-- Repo test vector: `"top"` with offset `10` resolves to `(475, 390)`. -/
theorem determinePosition_repo_test_top_offset :
    determinePosition
      { placement := Placement.top
        refWidth := 100, refHeight := 100, refLeft := 450, refTop := 450
        popperWidth := 50, popperHeight := 50
        windowWidth := 1000, windowHeight := 1000
        offsetDistance := 10 } = { x := 475, y := 390 } := by
  norm_num [determinePosition, clipToRange, claimedX, claimedY, Placement.align, Placement.top, Placement.bottom, Placement.bottomStart, Placement.right, Placement.rightStart, Placement.leftEnd, scenarioBottomStart, scenarioTallPopper, min_def, max_def, Coords.mk.injEq]

/-- Repo test vector: `"top"` near the top edge (`refTop = 5`, popper
height `20`) clips `y` to `0`. -/
theorem determinePosition_repo_test_top_edge :
    determinePosition
      { placement := Placement.top
        refWidth := 100, refHeight := 100, refLeft := 450, refTop := 5
        popperWidth := 50, popperHeight := 20
        windowWidth := 1000, windowHeight := 1000
        offsetDistance := 0 } = { x := 475, y := 0 } := by
  norm_num [determinePosition, clipToRange, claimedX, claimedY, Placement.align, Placement.top, Placement.bottom, Placement.bottomStart, Placement.right, Placement.rightStart, Placement.leftEnd, scenarioBottomStart, scenarioTallPopper, min_def, max_def, Coords.mk.injEq]

/-- Repo test vector: `"right"` near the right edge (`refLeft = 895`,
popper width `20`) clips `x` to `980`. -/
theorem determinePosition_repo_test_right_edge :
    determinePosition
      { placement := Placement.right
        refWidth := 100, refHeight := 100, refLeft := 895, refTop := 450
        popperWidth := 20, popperHeight := 50
        windowWidth := 1000, windowHeight := 1000
        offsetDistance := 0 } = { x := 980, y := 475 } := by
  norm_num [determinePosition, clipToRange, claimedX, claimedY, Placement.align, Placement.top, Placement.bottom, Placement.bottomStart, Placement.right, Placement.rightStart, Placement.leftEnd, scenarioBottomStart, scenarioTallPopper, min_def, max_def, Coords.mk.injEq]

/-- Repo test vector: `"left-end"` with a tall popper (`refTop = 10`,
`refHeight = 50`, popper height `100`) clips `y` to `0`. -/
theorem determinePosition_repo_test_left_end :
    determinePosition
      { placement := Placement.leftEnd
        refWidth := 100, refHeight := 50, refLeft := 450, refTop := 10
        popperWidth := 50, popperHeight := 100
        windowWidth := 1000, windowHeight := 1000
        offsetDistance := 0 } = { x := 400, y := 0 } := by
  norm_num [determinePosition, clipToRange, claimedX, claimedY, Placement.align, Placement.top, Placement.bottom, Placement.bottomStart, Placement.right, Placement.rightStart, Placement.leftEnd, scenarioBottomStart, scenarioTallPopper, min_def, max_def, Coords.mk.injEq]

/-- Repo test vector: `"right-start"` near the bottom (`refTop = 940`,
popper height `100`) clips `y` to `900`. -/
theorem determinePosition_repo_test_right_start :
    determinePosition
      { placement := Placement.rightStart
        refWidth := 100, refHeight := 50, refLeft := 450, refTop := 940
        popperWidth := 50, popperHeight := 100
        windowWidth := 1000, windowHeight := 1000
        offsetDistance := 0 } = { x := 550, y := 900 } := by
  norm_num [determinePosition, clipToRange, claimedX, claimedY, Placement.align, Placement.top, Placement.bottom, Placement.bottomStart, Placement.right, Placement.rightStart, Placement.leftEnd, scenarioBottomStart, scenarioTallPopper, min_def, max_def, Coords.mk.injEq]

/-- A bounding rectangle as returned by the measurement primitive
(`getBoundingClientRect`): viewport-relative left/top plus extent. -/
structure Rect where
  left : ℚ
  top : ℚ
  width : ℚ
  height : ℚ
deriving DecidableEq, Repr

/-- The rectangle's right edge; a `DOMRect` derives it as `x + width`. -/
def Rect.right (r : Rect) : ℚ :=
  r.left + r.width

/-- The flat record returned by `getDimensions` (source `utils.ts`). -/
structure Dimensions where
  popperHeight : ℚ
  popperWidth : ℚ
  refHeight : ℚ
  refWidth : ℚ
  refLeft : ℚ
  refTop : ℚ
  refRight : ℚ
deriving DecidableEq, Repr

/-- Lookup in the per-call rectangle memo (the source's `WeakMap` keyed by
element; elements are modelled by numeric identities). -/
def cacheFind (cache : List (ℕ × Rect)) (e : ℕ) : Option Rect :=
  match cache with
  | [] => none
  | (k, r) :: rest => if k = e then some r else cacheFind rest e

/-- The source's inner `getRect`: consult the memo, otherwise invoke the
measurement primitive (`env`), record the invocation in the log and store
the result in the memo. Returns (rect, memo, log). -/
def getRect (env : ℕ → Rect) (cache : List (ℕ × Rect)) (log : List ℕ)
    (element : ℕ) : Rect × List (ℕ × Rect) × List ℕ :=
  match cacheFind cache element with
  | some r => (r, cache, log)
  | none => (env element, (element, env element) :: cache, log ++ [element])

/-- `getDimensions` from `utils.ts`: fails when either element handle is
null/undefined (`none`), otherwise creates a fresh memo for this call,
reads the popper's rectangle then the reference's rectangle through the
memo, and returns the flat dimension record together with the log of
measurement-primitive invocations made during the call. -/
def getDimensions (env : ℕ → Rect) (reference popper : Option ℕ) :
    Except String (Dimensions × List ℕ) :=
  match reference, popper with
  | some ref, some pop =>
    let (popperRect, cache1, log1) := getRect env [] [] pop
    let (refRect, _, log2) := getRect env cache1 log1 ref
    Except.ok
      ({ popperHeight := popperRect.height
         popperWidth := popperRect.width
         refHeight := refRect.height
         refWidth := refRect.width
         refLeft := refRect.left
         refTop := refRect.top
         refRight := refRect.right }, log2)
  | _, _ => Except.error "Reference or popper element is null or undefined"

/-- Running `getDimensions` twice in a row, as two independent calls; the
memo of the first call is not available to the second (each call creates
its own). The combined invocation log is returned. -/
def getDimensionsTwice (env : ℕ → Rect) (reference popper : Option ℕ) :
    List ℕ :=
  match getDimensions env reference popper, getDimensions env reference popper with
  | Except.ok (_, log1), Except.ok (_, log2) => log1 ++ log2
  | _, _ => []

/-- C7: for non-null elements `getDimensions` returns the flat record taken
from the elements' rectangles with `refRight = refLeft + refWidth`; within
one call the measurement primitive is invoked exactly once per distinct
element (a shared reference-and-popper element is measured once), and the
memo is not retained across calls: a second call re-invokes the primitive
for each element again. -/
theorem getDimensions_reads_each_element_once (env : ℕ → Rect)
    (ref pop : ℕ) :
    getDimensions env (some ref) (some pop) =
      Except.ok
        ({ popperHeight := (env pop).height
           popperWidth := (env pop).width
           refHeight := (env ref).height
           refWidth := (env ref).width
           refLeft := (env ref).left
           refTop := (env ref).top
           refRight := (env ref).left + (env ref).width },
         if ref = pop then [pop] else [pop, ref]) ∧
    getDimensionsTwice env (some ref) (some pop) =
      (if ref = pop then [pop] else [pop, ref]) ++
        (if ref = pop then [pop] else [pop, ref]) := by
  have h : getDimensions env (some ref) (some pop) =
      Except.ok
        ({ popperHeight := (env pop).height
           popperWidth := (env pop).width
           refHeight := (env ref).height
           refWidth := (env ref).width
           refLeft := (env ref).left
           refTop := (env ref).top
           refRight := (env ref).left + (env ref).width },
         if ref = pop then [pop] else [pop, ref]) := by
    by_cases hrp : pop = ref
    · subst hrp
      simp [getDimensions, getRect, cacheFind, Rect.right]
    · have hrp' : ¬ ref = pop := fun h => hrp h.symm
      simp [getDimensions, getRect, cacheFind, Rect.right, hrp, hrp']
  exact ⟨h, by simp [getDimensionsTwice, h]⟩

/-- The browser environment a popper controller reads on each update:
viewport size (`window.innerWidth`/`innerHeight`) and the two elements'
current bounding rectangles. -/
structure PopperEnv where
  windowWidth : ℚ
  windowHeight : ℚ
  refRect : Rect
  popRect : Rect
deriving DecidableEq, Repr

/-- The mutable state of a popper controller instance: configuration
(`placement`, `offsetDistance`, disable flags), the registered flag
(`isEventRegistrer` / `isWindowEventsRegistered`), which window listeners
are currently attached (`addEventListener` with a fixed bound method is
idempotent, so attachment is a Boolean per event type), and the two
position style custom properties (`none` models the cleared empty
string). -/
structure PopperState where
  placement : Placement
  offsetDistance : ℚ
  disableOnResize : Bool
  disableOnScroll : Bool
  isEventsRegistered : Bool
  resizeAttached : Bool
  scrollAttached : Bool
  styleX : Option ℚ
  styleY : Option ℚ
deriving DecidableEq, Repr

/-- The object literal both implementations pass to `determinePosition`
inside `initPlacement`, built from `getDimensions` of the current
rectangles and the current viewport size. -/
def positioningContextOf (env : PopperEnv) (placement : Placement)
    (offsetDistance : ℚ) : PositioningContext :=
  { placement := placement
    refWidth := env.refRect.width
    refHeight := env.refRect.height
    refLeft := env.refRect.left
    refTop := env.refRect.top
    popperWidth := env.popRect.width
    popperHeight := env.popRect.height
    windowWidth := env.windowWidth
    windowHeight := env.windowHeight
    offsetDistance := offsetDistance }

/-- `initPlacement(placement?, offsetDistance?)` of the `popper.ts`
implementation: validates, clears the position styles, measures, resolves
the coordinate using the argument placement when supplied
(`placement || this.placement`) and the argument offset when truthy
(`offsetDistance || this.offsetDistance` — `0` is falsy), applies the
styles and reports the `onUpdate` call. The stored placement and offset
are NOT mutated. -/
def CreatePopper.initPlacement (s : PopperState) (env : PopperEnv)
    (placementArg : Option Placement) (offsetArg : Option ℚ) :
    PopperState × List (ℚ × ℚ × Placement) :=
  let usedPlacement := placementArg.getD s.placement
  let usedOffset :=
    match offsetArg with
    | none => s.offsetDistance
    | some d => if d = 0 then s.offsetDistance else d
  let pos := determinePosition (positioningContextOf env usedPlacement usedOffset)
  ({ s with styleX := some pos.x, styleY := some pos.y },
   [(pos.x, pos.y, usedPlacement)])

/-- `attachWindowEvent` of the `popper.ts` implementation: adds the
`resize`/`scroll` listeners unless disabled and marks the instance
registered (attachment of an already-attached identical listener is a
DOM no-op). -/
def CreatePopper.attachWindowEvent (s : PopperState) : PopperState :=
  { s with
    resizeAttached := if !s.disableOnResize then true else s.resizeAttached
    scrollAttached := if !s.disableOnScroll then true else s.scrollAttached
    isEventsRegistered := true }

/-- `cleanEvents` of the `popper.ts` implementation: removes the
`resize`/`scroll` listeners unless disabled; does not touch the
registered flag. -/
def CreatePopper.cleanEvents (s : PopperState) : PopperState :=
  { s with
    resizeAttached := if !s.disableOnResize then false else s.resizeAttached
    scrollAttached := if !s.disableOnScroll then false else s.scrollAttached }

/-- `updatePosition()` of the `popper.ts` implementation:
`initPositionate()` (which runs `initPlacement()` with no arguments) then
`attachWindowEvent()`. -/
def CreatePopper.updatePosition (s : PopperState) (env : PopperEnv) :
    PopperState × List (ℚ × ℚ × Placement) :=
  let r := CreatePopper.initPlacement s env none none
  (CreatePopper.attachWindowEvent r.1, r.2)

/-- `setOptions({placement, offsetDistance})` of the `popper.ts`
implementation: `initPlacement(placement, offsetDistance)`, then
`cleanEvents()` if registered, then `attachWindowEvent()`. -/
def CreatePopper.setOptions (s : PopperState) (env : PopperEnv)
    (placement : Placement) (offsetDistance : Option ℚ) :
    PopperState × List (ℚ × ℚ × Placement) :=
  let r := CreatePopper.initPlacement s env (some placement) offsetDistance
  let s2 := if r.1.isEventsRegistered then CreatePopper.cleanEvents r.1 else r.1
  (CreatePopper.attachWindowEvent s2, r.2)

/-- A window `scroll` (or `resize`) event delivered to the `popper.ts`
implementation: if its listener is attached it runs `initPositionate`,
i.e. `initPlacement()` with no arguments, using the stored placement and
offset. -/
def CreatePopper.onScrollEvent (s : PopperState) (env : PopperEnv) :
    PopperState × List (ℚ × ℚ × Placement) :=
  if s.scrollAttached then CreatePopper.initPlacement s env none none
  else (s, [])

/-- `initPlacement()` of the duplicate (`isWindowEventsRegistered`)
implementation: same as `popper.ts` but with no arguments — it always uses
the stored placement and offset. -/
def CreatePopperW.initPlacement (s : PopperState) (env : PopperEnv) :
    PopperState × List (ℚ × ℚ × Placement) :=
  let pos := determinePosition (positioningContextOf env s.placement s.offsetDistance)
  ({ s with styleX := some pos.x, styleY := some pos.y },
   [(pos.x, pos.y, s.placement)])

/-- `removeWindowEvents` of the duplicate implementation: when registered,
removes the listeners unless disabled and clears the registered flag. -/
def CreatePopperW.removeWindowEvents (s : PopperState) : PopperState :=
  if s.isEventsRegistered then
    { s with
      resizeAttached := if !s.disableOnResize then false else s.resizeAttached
      scrollAttached := if !s.disableOnScroll then false else s.scrollAttached
      isEventsRegistered := false }
  else s

/-- `attachWindowEvent` of the duplicate implementation: detaches first if
registered, then adds the listeners unless disabled and marks the
instance registered. -/
def CreatePopperW.attachWindowEvent (s : PopperState) : PopperState :=
  let s1 := if s.isEventsRegistered then CreatePopperW.removeWindowEvents s else s
  { s1 with
    resizeAttached := if !s1.disableOnResize then true else s1.resizeAttached
    scrollAttached := if !s1.disableOnScroll then true else s1.scrollAttached
    isEventsRegistered := true }

/-- `setOptions({placement, offsetDistance})` of the duplicate
implementation: mutates the stored placement, mutates the stored offset
when the supplied one is truthy (`offsetDistance || this.offsetDistance`),
then `initPlacement()` and `attachWindowEvent()`. -/
def CreatePopperW.setOptions (s : PopperState) (env : PopperEnv)
    (placement : Placement) (offsetDistance : Option ℚ) :
    PopperState × List (ℚ × ℚ × Placement) :=
  let s1 :=
    { s with
      placement := placement
      offsetDistance :=
        match offsetDistance with
        | none => s.offsetDistance
        | some d => if d = 0 then s.offsetDistance else d }
  let r := CreatePopperW.initPlacement s1 env
  (CreatePopperW.attachWindowEvent r.1, r.2)

/-- C8: `updatePosition()` is idempotent — with unchanged measurements and
viewport, a second call produces identical values of the two position
style custom properties and reports an identical `onUpdate` call
`{x, y, placement}`; each call re-measures from the environment. -/
theorem updatePosition_idempotent (s : PopperState) (env : PopperEnv) :
    ((CreatePopper.updatePosition (CreatePopper.updatePosition s env).1 env).1.styleX =
      (CreatePopper.updatePosition s env).1.styleX) ∧
    ((CreatePopper.updatePosition (CreatePopper.updatePosition s env).1 env).1.styleY =
      (CreatePopper.updatePosition s env).1.styleY) ∧
    ((CreatePopper.updatePosition (CreatePopper.updatePosition s env).1 env).2 =
      (CreatePopper.updatePosition s env).2) := by
  refine ⟨rfl, rfl, rfl⟩

/-- A concrete environment: `1000×1000` viewport, reference at
`(450, 450)` sized `100×100`, popper sized `50×50`. -/
def sampleEnv : PopperEnv :=
  { windowWidth := 1000, windowHeight := 1000
    refRect := { left := 450, top := 450, width := 100, height := 100 }
    popRect := { left := 0, top := 0, width := 50, height := 50 } }

/-- A concrete controller state after a first `updatePosition()`:
placement `"bottom"`, offset `0`, both event effects enabled, window
listeners registered and attached. -/
def samplePopperState : PopperState :=
  { placement := Placement.bottom
    offsetDistance := 0
    disableOnResize := false
    disableOnScroll := false
    isEventsRegistered := true
    resizeAttached := true
    scrollAttached := true
    styleX := some 475
    styleY := some 550 }

/-- C3 counterexample: in the `popper.ts` implementation,
`setOptions({placement: "top"})` does NOT mutate the stored placement —
it stays `"bottom"` — so the next scroll-driven repositioning resolves
and reports the old `"bottom"` placement `(475, 550)` instead of the new
`"top"` one, contradicting the claim that subsequent resize/scroll-driven
repositioning uses the new values. -/
theorem setOptions_does_not_mutate_stored_placement :
    (CreatePopper.setOptions samplePopperState sampleEnv Placement.top none).1.placement
        = Placement.bottom ∧
    (CreatePopper.onScrollEvent
        (CreatePopper.setOptions samplePopperState sampleEnv Placement.top none).1
        sampleEnv).2
        = [(475, 550, Placement.bottom)] ∧
    Placement.bottom ≠ Placement.top := by
  refine ⟨rfl, ?_, by decide⟩
  norm_num [CreatePopper.setOptions, CreatePopper.initPlacement,
    CreatePopper.cleanEvents, CreatePopper.attachWindowEvent,
    CreatePopper.onScrollEvent, samplePopperState, sampleEnv,
    positioningContextOf, determinePosition, clipToRange, Placement.align,
    Placement.top, Placement.bottom, min_def, max_def]

/-- C3 (amended): in the duplicate (`isWindowEventsRegistered`)
implementation, `setOptions` mutates the stored placement (and the stored
offset when the supplied one is truthy), re-runs the full
update-and-reattach sequence reporting `onUpdate` with the new values, and
leaves the window listeners attached exactly according to the disable
flags for every prior state consistent with those flags; the `popper.ts`
implementation gives the same listener guarantee but repositions with the
new values only transiently. -/
theorem setOptions_mutates_and_reattaches (s : PopperState) (env : PopperEnv)
    (p : Placement) (d : Option ℚ)
    (hr : s.disableOnResize = true → s.resizeAttached = false)
    (hsc : s.disableOnScroll = true → s.scrollAttached = false) :
    ((CreatePopperW.setOptions s env p d).1.placement = p) ∧
    ((CreatePopperW.setOptions s env p d).1.offsetDistance =
      match d with
      | none => s.offsetDistance
      | some v => if v = 0 then s.offsetDistance else v) ∧
    ((CreatePopperW.setOptions s env p d).1.resizeAttached = !s.disableOnResize) ∧
    ((CreatePopperW.setOptions s env p d).1.scrollAttached = !s.disableOnScroll) ∧
    ((CreatePopperW.setOptions s env p d).1.isEventsRegistered = true) ∧
    ((CreatePopperW.setOptions s env p d).2 =
      [((determinePosition (positioningContextOf env p
          ((CreatePopperW.setOptions s env p d).1.offsetDistance))).x,
        (determinePosition (positioningContextOf env p
          ((CreatePopperW.setOptions s env p d).1.offsetDistance))).y, p)]) ∧
    ((CreatePopper.setOptions s env p d).1.resizeAttached = !s.disableOnResize) ∧
    ((CreatePopper.setOptions s env p d).1.scrollAttached = !s.disableOnScroll) := by
  cases hreg : s.isEventsRegistered <;>
    cases hdr : s.disableOnResize <;>
      cases hds : s.disableOnScroll <;>
        simp_all [CreatePopperW.setOptions, CreatePopperW.initPlacement,
          CreatePopperW.attachWindowEvent, CreatePopperW.removeWindowEvents,
          CreatePopper.setOptions, CreatePopper.initPlacement,
          CreatePopper.attachWindowEvent, CreatePopper.cleanEvents]

theorem setOptions_mutates_and_reattaches_witness :
    (CreatePopperW.setOptions samplePopperState sampleEnv Placement.top none).1.placement
        = Placement.top ∧
    (CreatePopperW.setOptions samplePopperState sampleEnv Placement.top none).1.resizeAttached
        = !samplePopperState.disableOnResize ∧
    (CreatePopperW.setOptions samplePopperState sampleEnv Placement.top none).1.scrollAttached
        = !samplePopperState.disableOnScroll ∧
    (CreatePopperW.setOptions samplePopperState sampleEnv Placement.top none).1.isEventsRegistered
        = true :=
  ⟨(setOptions_mutates_and_reattaches samplePopperState sampleEnv Placement.top none
      (by decide) (by decide)).1,
   (setOptions_mutates_and_reattaches samplePopperState sampleEnv Placement.top none
      (by decide) (by decide)).2.2.1,
   (setOptions_mutates_and_reattaches samplePopperState sampleEnv Placement.top none
      (by decide) (by decide)).2.2.2.1,
   (setOptions_mutates_and_reattaches samplePopperState sampleEnv Placement.top none
      (by decide) (by decide)).2.2.2.2.1⟩

/-- A JavaScript value passed where an element is expected: a genuine
`HTMLElement` (with an identity), or `null`/`undefined`. -/
inductive ElementArg where
  | element (id : ℕ)
  | null
  | undefined
deriving DecidableEq, Repr

/-- The `instanceof HTMLElement` test. -/
def ElementArg.isHTMLElement : ElementArg → Bool
  | ElementArg.element _ => true
  | _ => false

/-- A JavaScript value supplied as the `offsetDistance` option: absent
(`undefined`), a number, or a string. -/
inductive OffsetArg where
  | undefined
  | num (q : ℚ)
  | str (s : String)
deriving DecidableEq, Repr

/-- JavaScript truthiness of an `offsetDistance` option value: `undefined`,
`0` and `""` are falsy. -/
def OffsetArg.isTruthy : OffsetArg → Bool
  | OffsetArg.undefined => false
  | OffsetArg.num q => decide (q ≠ 0)
  | OffsetArg.str s => decide (s ≠ "")

/-- The `typeof options.offsetDistance === "number"` test. -/
def OffsetArg.isNumber : OffsetArg → Bool
  | OffsetArg.num _ => true
  | _ => false

/-- The constructor's validation failures (thrown `Error`s). -/
inductive PopperError where
  | invalidReferenceElement
  | invalidPopperElement
  | invalidOffsetDistance
deriving DecidableEq, Repr

/-- Modelled from the spec: `DEFAULT_OFFSETDISTANCE` (source `const.ts` is
not under `src/`; the spec gives the default offset `0`). -/
def DEFAULT_OFFSETDISTANCE : ℚ := 0

/-- Modelled from the spec: `DEFAULT_PLACEMENT` (source `const.ts` is not
under `src/`; the spec gives the default placement `"bottom"`). -/
def DEFAULT_PLACEMENT : Placement := Placement.bottom

/-- The state produced by a successful `new CreatePopper(...)`: raw
handles, stored configuration and untouched styles/listeners; the paired
list records the positioning actions performed by construction (always
empty: the constructor positions nothing). -/
structure ConstructedPopper where
  reference : ElementArg
  popper : ElementArg
  offsetDistance : OffsetArg
  placement : Placement
  disableOnResize : Bool
  disableOnScroll : Bool
  styleX : Option ℚ
  styleY : Option ℚ
deriving DecidableEq, Repr

/-- The `CreatePopper` constructor: destructures the options applying
defaults (only `undefined` triggers a default), checks
`reference instanceof HTMLElement`, then `popper instanceof HTMLElement`,
then `options.offsetDistance && typeof options.offsetDistance !== "number"`
(note the truthiness guard on the raw option), and on success stores the
configuration without performing any positioning. -/
def createPopper (reference popper : ElementArg) (offsetOpt : OffsetArg)
    (placementOpt : Option Placement)
    (disableOnResize disableOnScroll : Bool) :
    Except PopperError (ConstructedPopper × List (ℚ × ℚ × Placement)) :=
  let offsetDistance :=
    match offsetOpt with
    | OffsetArg.undefined => OffsetArg.num DEFAULT_OFFSETDISTANCE
    | v => v
  let placement := placementOpt.getD DEFAULT_PLACEMENT
  if ¬ reference.isHTMLElement then Except.error PopperError.invalidReferenceElement
  else if ¬ popper.isHTMLElement then Except.error PopperError.invalidPopperElement
  else if offsetOpt.isTruthy ∧ ¬ offsetOpt.isNumber then
    Except.error PopperError.invalidOffsetDistance
  else
    Except.ok
      ({ reference := reference
         popper := popper
         offsetDistance := offsetDistance
         placement := placement
         disableOnResize := disableOnResize
         disableOnScroll := disableOnScroll
         styleX := none
         styleY := none }, [])

/-- C6 counterexample: the claim says construction fails with
`InvalidOffsetDistance` whenever a supplied `offsetDistance` is not
numeric, but the source guards the check with JavaScript truthiness
(`options.offsetDistance && ...`), so the falsy non-numeric string `""`
passes validation and construction succeeds. -/
theorem createPopper_accepts_falsy_nonnumeric_offset :
    (OffsetArg.str "").isNumber = false ∧
    (OffsetArg.str "") ≠ OffsetArg.undefined ∧
    createPopper (ElementArg.element 0) (ElementArg.element 1)
        (OffsetArg.str "") none false false ≠
      Except.error PopperError.invalidOffsetDistance := by
  refine ⟨rfl, by decide, ?_⟩
  simp [createPopper, ElementArg.isHTMLElement, OffsetArg.isTruthy,
    OffsetArg.isNumber]

/-- C6 (amended): construction fails synchronously with
`InvalidReferenceElement` when the reference is not an element handle,
with `InvalidPopperElement` when the reference is valid but the popper is
not, and with `InvalidOffsetDistance` when both elements are valid and
the supplied `offsetDistance` is truthy and not numeric (falsy
non-numeric values such as `""` are accepted); on failure no controller
is produced (the result is the error alone), and on success no
positioning has occurred: the styles are untouched and the action list is
empty. -/
theorem createPopper_validation (reference popper : ElementArg)
    (offsetOpt : OffsetArg) (placementOpt : Option Placement)
    (dr ds : Bool) :
    (reference.isHTMLElement = false →
      createPopper reference popper offsetOpt placementOpt dr ds =
        Except.error PopperError.invalidReferenceElement) ∧
    (reference.isHTMLElement = true → popper.isHTMLElement = false →
      createPopper reference popper offsetOpt placementOpt dr ds =
        Except.error PopperError.invalidPopperElement) ∧
    (reference.isHTMLElement = true → popper.isHTMLElement = true →
      offsetOpt.isTruthy = true → offsetOpt.isNumber = false →
      createPopper reference popper offsetOpt placementOpt dr ds =
        Except.error PopperError.invalidOffsetDistance) ∧
    (∀ c acts,
      createPopper reference popper offsetOpt placementOpt dr ds =
        Except.ok (c, acts) →
      acts = [] ∧ c.styleX = none ∧ c.styleY = none) := by
  refine ⟨fun h1 => by simp [createPopper, h1],
    fun h1 h2 => by simp [createPopper, h1, h2],
    fun h1 h2 h3 h4 => by simp [createPopper, h1, h2, h3, h4],
    fun c acts h => ?_⟩
  simp only [createPopper] at h
  split at h
  · exact Except.noConfusion h
  · split at h
    · exact Except.noConfusion h
    · split at h
      · exact Except.noConfusion h
      · simp only [Except.ok.injEq, Prod.mk.injEq] at h
        obtain ⟨hc, ha⟩ := h
        subst hc
        exact ⟨ha.symm, rfl, rfl⟩

theorem createPopper_validation_witness :
    createPopper ElementArg.null (ElementArg.element 1)
        OffsetArg.undefined none false false =
      Except.error PopperError.invalidReferenceElement ∧
    createPopper (ElementArg.element 0) ElementArg.null
        OffsetArg.undefined none false false =
      Except.error PopperError.invalidPopperElement ∧
    createPopper (ElementArg.element 0) (ElementArg.element 1)
        (OffsetArg.str "x") none false false =
      Except.error PopperError.invalidOffsetDistance :=
  ⟨(createPopper_validation ElementArg.null (ElementArg.element 1)
      OffsetArg.undefined none false false).1 (by decide),
   (createPopper_validation (ElementArg.element 0) ElementArg.null
      OffsetArg.undefined none false false).2.1 (by decide) (by decide),
   (createPopper_validation (ElementArg.element 0) (ElementArg.element 1)
      (OffsetArg.str "x") none false false).2.2.1 (by decide) (by decide)
      (by decide) (by decide)⟩

/-- The overlay's trigger strategy. -/
inductive TriggerStrategy where
  | click
  | hover
deriving DecidableEq, Repr

/-- The overlay configuration fields the handlers consult: strategy, the
two dismissal-prevention flags, and the (already defaulted) initial
state string. -/
structure OverlayConfig where
  triggerStrategy : TriggerStrategy
  preventFromCloseOutside : Bool
  preventFromCloseInside : Bool
  defaultState : String
deriving DecidableEq, Repr

/-- The two DOM attributes the overlay writes: the content element's
`data-state` and the trigger element's `aria-expanded`. -/
structure OverlayAttrs where
  dataState : String
  ariaExpanded : String
deriving DecidableEq, Repr

/-- One observable step of an overlay operation, in program order. -/
inductive OAction where
  | updatePopperPosition
  | popperSetOptions
  | addDocKeydown
  | addDocClick
  | removeDocClick
  | removeDocKeydown
  | addTriggerMouseleave
  | addContentMouseleave
  | removeTriggerMouseleave
  | removeContentMouseleave
  | addTriggerClick
  | addTriggerMouseenter
  | callBeforeShow
  | callBeforeHide
  | setDataState (value : String)
  | setAriaExpanded (value : String)
  | callOnToggle (isHidden : Bool)
  | callOnShow
  | callOnHide
  | popperCleanupEvents
  | transitionComplete
  | preventDefault
deriving DecidableEq, Repr

/-- `updateOverlayState` (source `create-overlay/helpers.ts`): writes
`data-state` on the content and `aria-expanded` (the string of
`state === "open"`) on the trigger, in that order. -/
def updateOverlayStateActions (state : String) : List OAction :=
  [OAction.setDataState state,
   OAction.setAriaExpanded (if state = "open" then "true" else "false")]

/-- `show()` in program order: reposition the popper, attach the document
`keydown` and `click` listeners, `beforeShow`, write the open state, then
`onToggle({isHidden:false})` and `onShow`. -/
def showTrace : List OAction :=
  [OAction.updatePopperPosition, OAction.addDocKeydown, OAction.addDocClick,
   OAction.callBeforeShow] ++
  updateOverlayStateActions "open" ++
  [OAction.callOnToggle false, OAction.callOnShow]

/-- `setShowOptions({placement, offsetDistance})` in program order: like
`show()` but reconfiguring the popper first. -/
def setShowOptionsTrace : List OAction :=
  [OAction.popperSetOptions, OAction.addDocKeydown, OAction.addDocClick,
   OAction.callBeforeShow] ++
  updateOverlayStateActions "open" ++
  [OAction.callOnToggle false, OAction.callOnShow]

/-- `hide()` in program order: `beforeHide`, write the close state
immediately, remove the document click listener (click strategy only),
remove the document keydown listener, remove the hover-leave listeners
(hover strategy only), then — after the content's CSS transition
completes — `onToggle({isHidden:true})`, the popper's `cleanupEvents`,
and `onHide`. -/
def hideTrace (strategy : TriggerStrategy) : List OAction :=
  [OAction.callBeforeHide] ++
  updateOverlayStateActions "close" ++
  (if strategy = TriggerStrategy.click then [OAction.removeDocClick] else []) ++
  [OAction.removeDocKeydown] ++
  (if strategy = TriggerStrategy.hover then
    [OAction.removeTriggerMouseleave, OAction.removeContentMouseleave]
   else []) ++
  [OAction.transitionComplete, OAction.callOnToggle true,
   OAction.popperCleanupEvents, OAction.callOnHide]

/-- `toggleStateOnClick`: reads `dataset.state || "close"` back from the
DOM; shows (arming hover-leave watchers under the hover strategy) when it
reads `"close"`, hides otherwise. -/
def toggleStateOnClickTrace (cfg : OverlayConfig) (attrs : OverlayAttrs) :
    List OAction :=
  let state := if attrs.dataState = "" then "close" else attrs.dataState
  if state = "close" then
    showTrace ++
      (if cfg.triggerStrategy = TriggerStrategy.hover then
        [OAction.addTriggerMouseleave, OAction.addContentMouseleave]
       else [])
  else hideTrace cfg.triggerStrategy

/-- `initInstance()` run by the constructor: write the default state, then
either `show()` or write the close state again, then attach the trigger's
click listener (and `mouseenter` under the hover strategy). -/
def initInstanceTrace (cfg : OverlayConfig) : List OAction :=
  updateOverlayStateActions cfg.defaultState ++
  (if cfg.defaultState = "open" then showTrace
   else updateOverlayStateActions "close") ++
  [OAction.addTriggerClick] ++
  (if cfg.triggerStrategy = TriggerStrategy.hover then
    [OAction.addTriggerMouseenter]
   else [])

/-- The effect of a trace on the two DOM attributes: only the
`setDataState`/`setAriaExpanded` actions write them. -/
def applyOActions (attrs : OverlayAttrs) (acts : List OAction) : OverlayAttrs :=
  acts.foldl
    (fun a act =>
      match act with
      | OAction.setDataState s => { a with dataState := s }
      | OAction.setAriaExpanded s => { a with ariaExpanded := s }
      | _ => a)
    attrs

/-- `handleDocumentClick`: while the content carries `data-state="open"`,
decides whether `hide()` is invoked, following the source's branch chain;
`targetInTrigger`/`targetInContent` model `element.contains(event.target)`. -/
def handleDocumentClickHides (attrs : OverlayAttrs) (cfg : OverlayConfig)
    (targetInTrigger targetInContent : Bool) : Bool :=
  if attrs.dataState = "open" then
    if !targetInTrigger && !cfg.preventFromCloseInside &&
        !cfg.preventFromCloseOutside then true
    else if !targetInTrigger && !targetInContent &&
        !cfg.preventFromCloseOutside then true
    else if !targetInTrigger && !targetInContent &&
        !cfg.preventFromCloseOutside then true
    else if !targetInTrigger && targetInContent &&
        !cfg.preventFromCloseInside then true
    else false
  else false

/-- The actions a document-level click performs: the `hide()` sequence
when the handler decides to close, nothing otherwise. -/
def handleDocumentClickTrace (attrs : OverlayAttrs) (cfg : OverlayConfig)
    (targetInTrigger targetInContent : Bool) : List OAction :=
  if handleDocumentClickHides attrs cfg targetInTrigger targetInContent then
    hideTrace cfg.triggerStrategy
  else []

/-- `handleKeyDown`: calls `event.preventDefault()` first, unconditionally,
then tests the strategy and the `Escape` key, the open state and the
outside-dismissal flag before hiding. -/
def handleKeyDownTrace (cfg : OverlayConfig) (attrs : OverlayAttrs)
    (key : String) : List OAction :=
  OAction.preventDefault ::
    (if cfg.triggerStrategy ≠ TriggerStrategy.hover ∧ key = "Escape" then
      if attrs.dataState = "open" then
        if cfg.preventFromCloseOutside = false then hideTrace cfg.triggerStrategy
        else []
      else []
     else [])

/-- C4: `hide()` writes `data-state="close"` and `aria-expanded="false"`
immediately — before the transition marker — detaches the
strategy-dependent click listener and the keydown listener, and only
after the content's CSS transition completes runs
`onToggle({isHidden:true})`, the popper's `cleanupEvents`, and `onHide`,
in that order, for both trigger strategies. -/
theorem hide_action_sequence :
    (∃ pre,
      hideTrace TriggerStrategy.click =
        pre ++ [OAction.transitionComplete, OAction.callOnToggle true,
          OAction.popperCleanupEvents, OAction.callOnHide] ∧
      OAction.transitionComplete ∉ pre ∧
      pre.take 3 = [OAction.callBeforeHide, OAction.setDataState "close",
        OAction.setAriaExpanded "false"] ∧
      OAction.removeDocClick ∈ pre ∧
      OAction.removeDocKeydown ∈ pre) ∧
    (∃ pre,
      hideTrace TriggerStrategy.hover =
        pre ++ [OAction.transitionComplete, OAction.callOnToggle true,
          OAction.popperCleanupEvents, OAction.callOnHide] ∧
      OAction.transitionComplete ∉ pre ∧
      pre.take 3 = [OAction.callBeforeHide, OAction.setDataState "close",
        OAction.setAriaExpanded "false"] ∧
      OAction.removeDocKeydown ∈ pre ∧
      OAction.removeTriggerMouseleave ∈ pre ∧
      OAction.removeContentMouseleave ∈ pre) :=
  ⟨⟨[OAction.callBeforeHide, OAction.setDataState "close",
     OAction.setAriaExpanded "false", OAction.removeDocClick,
     OAction.removeDocKeydown], by decide⟩,
   ⟨[OAction.callBeforeHide, OAction.setDataState "close",
     OAction.setAriaExpanded "false", OAction.removeDocKeydown,
     OAction.removeTriggerMouseleave, OAction.removeContentMouseleave],
    by decide⟩⟩

/-- C5: with the content open and neither prevention flag set, a
document-level click outside both trigger and content invokes `hide()`,
which writes `data-state="close"`; and the handler never hides when the
click target is inside the trigger, whatever the state and flags. -/
theorem documentClick_outside_closes (aria dflt : String)
    (strat : TriggerStrategy) :
    handleDocumentClickHides ⟨"open", aria⟩ ⟨strat, false, false, dflt⟩
        false false = true ∧
    (applyOActions ⟨"open", aria⟩
        (handleDocumentClickTrace ⟨"open", aria⟩ ⟨strat, false, false, dflt⟩
          false false)).dataState = "close" ∧
    (∀ (ds aria2 : String) (cfg : OverlayConfig) (inContent : Bool),
      handleDocumentClickHides ⟨ds, aria2⟩ cfg true inContent = false) := by
  refine ⟨by simp [handleDocumentClickHides], ?_, ?_⟩
  · cases strat <;>
      simp [handleDocumentClickTrace, handleDocumentClickHides, hideTrace,
        updateOverlayStateActions, applyOActions]
  · intro ds aria2 cfg inContent
    simp [handleDocumentClickHides]

/-- The invariant of C9: `data-state` is `"open"` with `aria-expanded`
`"true"`, or `"close"` with `"false"`. -/
def AttrsConsistent (a : OverlayAttrs) : Prop :=
  (a.dataState = "open" ∧ a.ariaExpanded = "true") ∨
  (a.dataState = "close" ∧ a.ariaExpanded = "false")

/-- C9: after each overlay operation that touches overlay state —
constructor initialization, `show`, `hide`, `setShowOptions`, the
trigger-click toggle — the content's `data-state` is exactly `"open"` or
`"close"` and the trigger's `aria-expanded` is `"true"` iff it is
`"open"`, from any prior attribute state. -/
theorem overlay_attrs_invariant (attrs : OverlayAttrs) (cfg : OverlayConfig) :
    AttrsConsistent (applyOActions attrs showTrace) ∧
    AttrsConsistent (applyOActions attrs (hideTrace cfg.triggerStrategy)) ∧
    AttrsConsistent (applyOActions attrs (initInstanceTrace cfg)) ∧
    AttrsConsistent (applyOActions attrs (toggleStateOnClickTrace cfg attrs)) ∧
    AttrsConsistent (applyOActions attrs setShowOptionsTrace) := by
  refine ⟨Or.inl ⟨rfl, rfl⟩, ?_, ?_, ?_, Or.inl ⟨rfl, rfl⟩⟩
  · cases cfg.triggerStrategy <;> exact Or.inr ⟨rfl, rfl⟩
  · by_cases hd : cfg.defaultState = "open" <;>
      cases hstrat : cfg.triggerStrategy <;>
        simp [initInstanceTrace, applyOActions, updateOverlayStateActions,
          showTrace, AttrsConsistent, hd, hstrat]
  · cases hstrat : cfg.triggerStrategy <;>
      simp only [toggleStateOnClickTrace, hstrat] <;>
        split_ifs <;>
          simp [applyOActions, showTrace, hideTrace,
            updateOverlayStateActions, AttrsConsistent]

/-- C10: while attached, the overlay's keydown handler calls
`preventDefault()` first on every keydown, whatever the key, the trigger
strategy, the open/close state and the flags; the Escape test only comes
afterwards. -/
theorem keydown_prevents_default_first (cfg : OverlayConfig)
    (attrs : OverlayAttrs) (key : String) :
    (handleKeyDownTrace cfg attrs key).head? = some OAction.preventDefault ∧
    OAction.preventDefault ∈ handleKeyDownTrace cfg attrs key :=
  ⟨rfl, List.mem_cons_self _ _⟩
